import Mathlib

/-!
# Verification of the novotechno-collections coordination core

A shallow embedding, in Lean 4, of the state, scheduling, credential,
rate-limiting, payment-matching, routing and ledger logic of the
`novotechno-collections` repository, with theorems settling the spec
claims about those components.

Each definition is translated from the Python source file named in its
doc comment.  Machine-level concerns (file descriptors, threads, wall
clock floats) are modelled with explicit state records and integer or
rational time/amount values.
-/

namespace NovoSpec

/-! ## Reminder scheduler — `src/collections/scheduler.py` -/

/-- A reminder rule's day offset: `days_before_due` or `days_after_due`
(each `REMINDER_RULES` entry carries exactly one of the two keys). -/
inductive RuleOffset
  | beforeDue (d : Int)
  | afterDue (d : Int)
deriving DecidableEq, Repr

/-- One entry of `CollectionScheduler.REMINDER_RULES`. -/
structure ReminderRule where
  name : String
  offset : RuleOffset
  template : String
deriving DecidableEq, Repr

/-- `CollectionScheduler.REMINDER_RULES`, in dict insertion order
(scheduler.py lines 22-29). -/
def REMINDER_RULES : List ReminderRule :=
  [⟨"reminder_1", .beforeDue 3, "reminder_3d"⟩,
   ⟨"reminder_2", .beforeDue 0, "reminder_due"⟩,
   ⟨"overdue_1", .afterDue 5, "overdue_5d"⟩,
   ⟨"overdue_2", .afterDue 7, "overdue_7d"⟩,
   ⟨"final_notice", .afterDue 10, "final_notice"⟩,
   ⟨"escalation", .afterDue 14, "escalation"⟩]

/-- An invoice record as consumed by the scheduler: the dict fields read
by `get_due_reminders` / `send_reminders` (`client`, `number`, `email`,
`due_date`), with `due_date` as a day number so that
`(due_date - now).days` becomes `dueDay - today`.  `reminderLog` is the
invoice's `reminder_log` from the data model; the scheduler source never
reads it. -/
structure Invoice where
  client : String
  number : String
  email : String
  dueDay : Int
  reminderLog : List String
deriving DecidableEq, Repr

/-- One element of the list returned by `get_due_reminders`. -/
structure Reminder where
  invoice : Invoice
  rule : String
  template : String
deriving DecidableEq, Repr

/-- The per-rule test in the `get_due_reminders` loop body
(scheduler.py lines 60-76): a `days_before_due` rule fires when
`days_until_due == rule["days_before_due"]`, a `days_after_due` rule
when `days_until_due == -rule["days_after_due"]`. -/
def ruleFires (daysUntilDue : Int) (r : ReminderRule) : Bool :=
  match r.offset with
  | .beforeDue d => daysUntilDue == d
  | .afterDue d => daysUntilDue == -d

/-- `CollectionScheduler.get_due_reminders` (scheduler.py lines 47-78):
for every invoice in `get_all_unpaid()` and every rule whose offset
matches `days_until_due`, emit a reminder.  The source applies no other
filter (in particular it does not consult `reminder_log` or the pause
set). -/
def get_due_reminders (today : Int) (unpaid : List Invoice) : List Reminder :=
  unpaid.flatMap fun inv =>
    (REMINDER_RULES.filter (ruleFires (inv.dueDay - today))).map fun r =>
      ⟨inv, r.name, r.template⟩

/-- Claim C1: `get_due_reminders` returns an `(invoice, rule)` pair only
if the rule's id is not already in the invoice's `reminder_log`.
Refuted at a concrete input: an unpaid invoice due in 3 days whose
`reminder_log` already contains `"reminder_1"` is still paired with
rule `"reminder_1"`. -/
theorem get_due_reminders_ignores_reminder_log :
    let inv : Invoice := ⟨"acme", "INV-001", "ap@acme.test", 3, ["reminder_1"]⟩
    "reminder_1" ∈ inv.reminderLog ∧
      ⟨inv, "reminder_1", "reminder_3d"⟩ ∈ get_due_reminders 0 [inv] := by
  decide

/-- Claim C1 (amended): membership in `get_due_reminders today unpaid` is
characterised solely by unpaid-list membership and the day-offset match;
no condition on `reminder_log` is applied, so a rule whose id already
appears in the log is returned again. -/
theorem get_due_reminders_membership (today : Int) (unpaid : List Invoice)
    (rem : Reminder) :
    rem ∈ get_due_reminders today unpaid ↔
      rem.invoice ∈ unpaid ∧ ∃ r ∈ REMINDER_RULES,
        ruleFires (rem.invoice.dueDay - today) r = true ∧
        rem.rule = r.name ∧ rem.template = r.template := by
  constructor
  · intro h
    simp only [get_due_reminders, List.mem_flatMap, List.mem_map,
      List.mem_filter] at h
    obtain ⟨inv, hinv, r, ⟨hr, hf⟩, hrem⟩ := h
    subst hrem
    exact ⟨hinv, r, hr, hf, rfl, rfl⟩
  · rintro ⟨hinv, r, hr, hf, hname, htmpl⟩
    simp only [get_due_reminders, List.mem_flatMap, List.mem_map,
      List.mem_filter]
    exact ⟨rem.invoice, hinv, r, ⟨hr, hf⟩, by cases rem; simp_all⟩

/-- Claim C1 (amended), witnessed: instantiating the membership
characterisation on an invoice whose log already holds `"reminder_1"`. -/
theorem get_due_reminders_membership_witness :
    ⟨⟨"acme", "INV-002", "ap@acme.test", 3, ["reminder_1"]⟩, "reminder_1",
        "reminder_3d"⟩ ∈
      get_due_reminders 0 [⟨"acme", "INV-002", "ap@acme.test", 3, ["reminder_1"]⟩] :=
  (get_due_reminders_membership 0 _ _).mpr
    ⟨by decide, ⟨"reminder_1", .beforeDue 3, "reminder_3d"⟩, by decide, by decide,
      rfl, rfl⟩

/-! ## Token-bucket rate limiter — `src/auth/rate_limiter.py` -/

/-- `RateLimitConfig` (rate_limiter.py lines 17-23). -/
structure RateLimitConfig where
  maxPerCycle : Nat := 20
  cycleSeconds : Int := 60
  maxPerDay : Int := 100
  daySeconds : Int := 86400
deriving DecidableEq, Repr

/-- The mutable fields of `TokenBucketRateLimiter`: the daily bucket
(`_daily_tokens`, `_daily_last_refill`) and the cycle sliding window
(`_cycle_queue` as a FIFO of acquisition timestamps, oldest first, plus
`_cycle_window_start`). -/
structure RateLimiterState where
  dailyTokens : Int
  dailyLastRefill : Int
  cycleQueue : List Int
  cycleWindowStart : Int
deriving DecidableEq, Repr

/-- `TokenBucketRateLimiter.__init__` at instant `now`
(rate_limiter.py lines 32-55). -/
def initRateLimiter (cfg : RateLimitConfig) (now : Int) : RateLimiterState :=
  ⟨cfg.maxPerDay, now, [], now⟩

/-- `_refill_daily_tokens` (rate_limiter.py lines 57-63). -/
def refill_daily_tokens (cfg : RateLimitConfig) (now : Int)
    (s : RateLimiterState) : RateLimiterState :=
  if now - s.dailyLastRefill ≥ cfg.daySeconds then
    { s with dailyTokens := cfg.maxPerDay, dailyLastRefill := now }
  else s

/-- `_cleanup_cycle_queue` (rate_limiter.py lines 65-76): pop entries
older than `now - cycle_seconds` from the front of the FIFO; if the
queue empties, reset the window start. -/
def cleanup_cycle_queue (cfg : RateLimitConfig) (now : Int)
    (s : RateLimiterState) : RateLimiterState :=
  if (s.cycleQueue.dropWhile fun t => decide (t < now - cfg.cycleSeconds)).isEmpty then
    { s with
      cycleQueue := s.cycleQueue.dropWhile fun t => decide (t < now - cfg.cycleSeconds),
      cycleWindowStart := now }
  else
    { s with
      cycleQueue := s.cycleQueue.dropWhile fun t => decide (t < now - cfg.cycleSeconds) }

/-- `_consume_cycle_token` (rate_limiter.py lines 83-88). -/
def consume_cycle_token (now : Int) (s : RateLimiterState) : RateLimiterState :=
  if s.cycleQueue.isEmpty then
    { s with cycleWindowStart := now, cycleQueue := s.cycleQueue ++ [now] }
  else { s with cycleQueue := s.cycleQueue ++ [now] }

/-- `acquire(block=False)`, the body of `try_acquire`
(rate_limiter.py lines 90-121, 144-146): refill the daily bucket, then
succeed iff `_daily_tokens > 0` and, after evicting expired entries,
the cycle queue holds fewer than `max_per_cycle` timestamps; on success
decrement the daily bucket and append `now` to the queue.  (The `and`
short-circuits, so the queue is not cleaned when the daily bucket is
empty.) -/
def try_acquire (cfg : RateLimitConfig) (now : Int)
    (s : RateLimiterState) : Bool × RateLimiterState :=
  let s := refill_daily_tokens cfg now s
  if 0 < s.dailyTokens then
    let s := cleanup_cycle_queue cfg now s
    if s.cycleQueue.length < cfg.maxPerCycle then
      (true, consume_cycle_token now { s with dailyTokens := s.dailyTokens - 1 })
    else (false, s)
  else (false, s)

/-- For a timestamp FIFO in nondecreasing order, popping the entries
below the cutoff from the front leaves exactly the entries at or above
the cutoff. -/
theorem sorted_dropWhile_lt_eq_filter (c : Int) :
    ∀ l : List Int, l.Sorted (· ≤ ·) →
      (l.dropWhile fun t => decide (t < c)) = l.filter fun t => decide (c ≤ t) := by
  intro l hl
  induction l with
  | nil => simp
  | cons a l ih =>
    rw [List.sorted_cons] at hl
    by_cases hac : a < c
    · rw [List.dropWhile_cons_of_pos (by simpa using hac),
        List.filter_cons_of_neg (by simpa using hac)]
      exact ih hl.2
    · rw [List.dropWhile_cons_of_neg (by simpa using hac),
        List.filter_cons_of_pos (by simpa using not_lt.mp hac)]
      rw [List.filter_eq_self.mpr]
      intro t ht
      simpa using le_trans (not_lt.mp hac) (hl.1 t ht)

/-- Claim C5: when the pending timestamps are in FIFO (nondecreasing)
order, `try_acquire` succeeds iff fewer than `max_per_cycle` of them lie
within the rolling `cycle_seconds` window and the (refilled) daily
budget is positive; on success it decrements the daily budget by one
and appends the acquisition instant to the in-window queue. -/
theorem try_acquire_correct (cfg : RateLimitConfig) (now : Int)
    (s : RateLimiterState) (hs : s.cycleQueue.Sorted (· ≤ ·)) :
    ((try_acquire cfg now s).1 = true ↔
      ((s.cycleQueue.filter fun t => decide (now - cfg.cycleSeconds ≤ t)).length <
          cfg.maxPerCycle ∧
        0 < (refill_daily_tokens cfg now s).dailyTokens)) ∧
    ((try_acquire cfg now s).1 = true →
      (try_acquire cfg now s).2.dailyTokens =
          (refill_daily_tokens cfg now s).dailyTokens - 1 ∧
      (try_acquire cfg now s).2.cycleQueue =
        (s.cycleQueue.filter fun t => decide (now - cfg.cycleSeconds ≤ t)) ++ [now]) := by
  have hrq : (refill_daily_tokens cfg now s).cycleQueue = s.cycleQueue := by
    unfold refill_daily_tokens; split <;> rfl
  have hclean : (cleanup_cycle_queue cfg now (refill_daily_tokens cfg now s)).cycleQueue =
      s.cycleQueue.filter fun t => decide (now - cfg.cycleSeconds ≤ t) := by
    unfold cleanup_cycle_queue
    rw [hrq, sorted_dropWhile_lt_eq_filter _ _ hs]
    split <;> rfl
  have hcd : (cleanup_cycle_queue cfg now (refill_daily_tokens cfg now s)).dailyTokens =
      (refill_daily_tokens cfg now s).dailyTokens := by
    unfold cleanup_cycle_queue; split <;> rfl
  have hconsD : ∀ s' : RateLimiterState,
      (consume_cycle_token now s').dailyTokens = s'.dailyTokens := by
    intro s'; unfold consume_cycle_token; split <;> rfl
  have hconsQ : ∀ s' : RateLimiterState,
      (consume_cycle_token now s').cycleQueue = s'.cycleQueue ++ [now] := by
    intro s'; unfold consume_cycle_token; split <;> rfl
  by_cases hd : 0 < (refill_daily_tokens cfg now s).dailyTokens
  · by_cases hlen :
        (cleanup_cycle_queue cfg now (refill_daily_tokens cfg now s)).cycleQueue.length <
          cfg.maxPerCycle
    · have hres : try_acquire cfg now s =
          (true, consume_cycle_token now
            { cleanup_cycle_queue cfg now (refill_daily_tokens cfg now s) with
              dailyTokens :=
                (cleanup_cycle_queue cfg now (refill_daily_tokens cfg now s)).dailyTokens -
                  1 }) := by
        simp only [try_acquire]
        rw [if_pos hd, if_pos hlen]
      rw [hres]
      refine ⟨iff_of_true rfl ⟨hclean ▸ hlen, hd⟩, fun _ => ⟨?_, ?_⟩⟩
      · rw [hconsD]
        exact congrArg (· - 1) hcd
      · rw [hconsQ]
        exact congrArg (· ++ [now]) hclean
    · have hres : try_acquire cfg now s =
          (false, cleanup_cycle_queue cfg now (refill_daily_tokens cfg now s)) := by
        simp only [try_acquire]
        rw [if_pos hd, if_neg hlen]
      rw [hres]
      refine ⟨iff_of_false (by simp) ?_, fun h => absurd h (by simp)⟩
      rintro ⟨h1, -⟩
      exact hlen (hclean ▸ h1)
  · have hres : try_acquire cfg now s = (false, refill_daily_tokens cfg now s) := by
      simp only [try_acquire]
      rw [if_neg hd]
    rw [hres]
    refine ⟨iff_of_false (by simp) ?_, fun h => absurd h (by simp)⟩
    rintro ⟨-, h2⟩
    exact hd h2

/-- Claim C5, witnessed at the documented 20-per-60-second default: with
20 acquisitions already recorded at instant 0, the 21st `try_acquire`
inside the window (at instant 30) is refused, while at instant 61 the
window entries have expired and acquisition succeeds again with a fresh
per-cycle count, the daily budget having absorbed the 20 prior sends. -/
theorem try_acquire_correct_witness :
    (try_acquire {} 30 ⟨80, 0, List.replicate 20 0, 0⟩).1 = false ∧
    (try_acquire {} 61 ⟨80, 0, List.replicate 20 0, 0⟩).1 = true := by
  have hsort : (List.replicate 20 (0 : Int)).Sorted (· ≤ ·) := by decide
  constructor
  · have h := (try_acquire_correct {} 30 ⟨80, 0, List.replicate 20 0, 0⟩ hsort).1
    have : ¬ (try_acquire {} 30 ⟨80, 0, List.replicate 20 0, 0⟩).1 = true := by
      rw [h]
      decide
    simpa using this
  · exact ((try_acquire_correct {} 61 ⟨80, 0, List.replicate 20 0, 0⟩ hsort).1).mpr
      (by decide)

/-! ## Token cache and validator — `src/auth/token_cache.py`,
`src/auth/token_validator.py` -/

/-- `CachedToken` (token_cache.py lines 21-46), the fields read by the
validator; `expires_at` is an absolute instant in seconds. -/
structure CachedToken where
  accessToken : String
  tokenType : String
  expiresAt : Int
  refreshToken : Option String
deriving DecidableEq, Repr

/-- `CachedToken.is_expired` (token_cache.py lines 37-41):
`now >= expires_at - 300`. -/
def is_expired (now : Int) (t : CachedToken) : Bool :=
  now ≥ t.expiresAt - 300

/-- Outcome of `TokenValidator.validate_before_request`
(token_validator.py lines 39-78).  `refreshAttempted` marks the call
entering `_silent_refresh`; `returned` is the unrefreshed cached-token
path. -/
inductive ValidateResult
  | degradedMode
  | notConfigured
  | returned (t : CachedToken)
  | refreshAttempted (t : CachedToken)
deriving DecidableEq, Repr

/-- `TokenValidator.validate_before_request` (token_validator.py lines
39-78): fail when DEGRADED; fail when no cached token; compute
`remaining = expires_at - now` and attempt `_silent_refresh` iff
`remaining < buffer_seconds`, otherwise return the cached token. -/
def validate_before_request (now bufferSeconds : Int) (degraded : Bool)
    (cached : Option CachedToken) : ValidateResult :=
  if degraded then .degradedMode
  else
    match cached with
    | none => .notConfigured
    | some tok =>
      if tok.expiresAt - now < bufferSeconds then .refreshAttempted tok
      else .returned tok

/-- Claim C3: a token with `expires_at - now = BUFFER` has a refresh
attempted.  Refuted at a concrete input: with the default 300-second
buffer and exactly 300 seconds remaining, `remaining < buffer_seconds`
is false, so the cached token is returned unrefreshed (even though
`CachedToken.is_expired` already holds at that instant). -/
theorem validate_at_buffer_boundary_counterexample :
    let tok : CachedToken := ⟨"tok-a", "Bearer", 1300, some "ref-a"⟩
    tok.expiresAt - 1000 = 300 ∧ is_expired 1000 tok = true ∧
      validate_before_request 1000 300 false (some tok) = .returned tok ∧
      validate_before_request 1000 300 false (some tok) ≠ .refreshAttempted tok := by
  decide

/-- Claim C3 (amended): with the validator not in DEGRADED mode,
`validate_before_request` returns the cached token unrefreshed exactly
when `buffer ≤ expires_at - now`, and attempts silent refresh exactly
when `expires_at - now < buffer`; so the boundary token with
`expires_at - now = BUFFER` is returned unrefreshed, `BUFFER + 1`
likewise, and `BUFFER - 1` triggers a refresh attempt. -/
theorem validate_before_request_boundary (now bufferSeconds : Int)
    (tok : CachedToken) :
    (validate_before_request now bufferSeconds false (some tok) = .returned tok ↔
      bufferSeconds ≤ tok.expiresAt - now) ∧
    (validate_before_request now bufferSeconds false (some tok) =
        .refreshAttempted tok ↔
      tok.expiresAt - now < bufferSeconds) := by
  by_cases h : tok.expiresAt - now < bufferSeconds
  · have hv : validate_before_request now bufferSeconds false (some tok) =
        .refreshAttempted tok := by
      unfold validate_before_request
      simp [h]
    rw [hv]
    exact ⟨iff_of_false (by simp) (not_le.mpr h), iff_of_true rfl h⟩
  · have hv : validate_before_request now bufferSeconds false (some tok) =
        .returned tok := by
      unfold validate_before_request
      simp [h]
    rw [hv]
    exact ⟨iff_of_true rfl (not_lt.mp h), iff_of_false (by simp) h⟩

/-- Claim C3 (amended), witnessed at the three boundary offsets around
the default 300-second buffer. -/
theorem validate_before_request_boundary_witness :
    validate_before_request 1000 300 false
        (some ⟨"t300", "Bearer", 1300, none⟩) = .returned ⟨"t300", "Bearer", 1300, none⟩ ∧
    validate_before_request 1000 300 false
        (some ⟨"t301", "Bearer", 1301, none⟩) = .returned ⟨"t301", "Bearer", 1301, none⟩ ∧
    validate_before_request 1000 300 false
        (some ⟨"t299", "Bearer", 1299, none⟩) =
      .refreshAttempted ⟨"t299", "Bearer", 1299, none⟩ :=
  ⟨(validate_before_request_boundary 1000 300 _).1.mpr (by decide),
   (validate_before_request_boundary 1000 300 _).1.mpr (by decide),
   (validate_before_request_boundary 1000 300 _).2.mpr (by decide)⟩

/-! ## Scheduler send loop — `src/collections/scheduler.py` with the
mail pipeline of `src/collections/email_sender.py` -/

/-- The `{"sent": ..., "failed": ..., "rate_limited": ...}` dictionary
returned by `send_reminders`. -/
structure SendCounts where
  sent : Nat
  failed : Nat
  rateLimited : Nat
deriving DecidableEq, Repr

/-- Outcome of one `send_collection_reminder` call: normal return,
`RateLimitExceeded`, or any other exception. -/
inductive SendOutcome
  | ok
  | rateLimited
  | err
deriving DecidableEq, Repr

/-- The `for reminder in reminders[:batch_size]` loop body of
`send_reminders` (scheduler.py lines 94-127), threading the sender's
state: a paused client is skipped; a normal send increments `sent` (and
the reminder is recorded via `record_email_sent`, collected here in the
returned log); `RateLimitExceeded` increments `rate_limited` and breaks
the loop; any other exception increments `failed` and continues. -/
def send_loop {σ : Type} (send : σ → SendOutcome × σ) (isPaused : String → Bool) :
    List Reminder → σ → SendCounts × σ × List Reminder
  | [], s => (⟨0, 0, 0⟩, s, [])
  | r :: rest, s =>
    if isPaused r.invoice.client then send_loop send isPaused rest s
    else
      match send s with
      | (.ok, s1) =>
        match send_loop send isPaused rest s1 with
        | (c, s2, log) => ({ c with sent := c.sent + 1 }, s2, r :: log)
      | (.rateLimited, s1) => (⟨0, 0, 1⟩, s1, [])
      | (.err, s1) =>
        match send_loop send isPaused rest s1 with
        | (c, s2, log) => ({ c with failed := c.failed + 1 }, s2, log)

/-- `CollectionScheduler.send_reminders` (scheduler.py lines 80-129):
compute the due reminders, truncate to `batch_size`, and run the send
loop. -/
def send_reminders {σ : Type} (batchSize : Nat) (today : Int)
    (unpaid : List Invoice) (isPaused : String → Bool)
    (send : σ → SendOutcome × σ) (s0 : σ) : SendCounts × σ × List Reminder :=
  send_loop send isPaused ((get_due_reminders today unpaid).take batchSize) s0

/-- `GraphEmailSender.send_email` gating (email_sender.py lines
104-108): a send first calls `rate_limiter.try_acquire()` and raises
`RateLimitExceeded` when it refuses; otherwise the send succeeds. -/
def limiter_send (cfg : RateLimitConfig) (now : Int)
    (s : RateLimiterState) : SendOutcome × RateLimiterState :=
  match try_acquire cfg now s with
  | (true, s1) => (.ok, s1)
  | (false, s1) => (.rateLimited, s1)

/-- 21 invoices all due in three days, so each is paired with exactly
the `reminder_1` rule and 21 reminders are due. -/
def c4Invoices : List Invoice :=
  (List.range 21).map fun i =>
    ⟨"client" ++ toString i, "INV-" ++ toString i, "billing@client.test", 3, []⟩

/-- Claim C4: with 21 invoices due, a 20-per-cycle limiter and one batch
of `batch_size = 20`, the returned counts are
`sent=20, rate_limited=1, failed=0`.  Refuted by computing that run: the
slice `reminders[:20]` drops the 21st reminder before any send is
attempted, every attempted send is admitted by the limiter, and the
counts come out `sent=20, rate_limited=0, failed=0`. -/
theorem send_reminders_batch_boundary_counterexample :
    (send_reminders 20 0 c4Invoices (fun _ => false) (limiter_send {} 0)
        (initRateLimiter {} 0)).1 = ⟨20, 0, 0⟩ ∧
    (send_reminders 20 0 c4Invoices (fun _ => false) (limiter_send {} 0)
        (initRateLimiter {} 0)).1 ≠ ⟨20, 0, 1⟩ ∧
    (send_reminders 20 0 c4Invoices (fun _ => false) (limiter_send {} 0)
        (initRateLimiter {} 0)).1.rateLimited ≠ 1 := by
  decide

/-- Claim C4 (amended): in that scenario the counts are
`sent=20, rate_limited=0, failed=0` — the 21st reminder is cut off by
the `batch_size` slice before any send, so the local limiter is never
asked about it and nothing is counted as rate-limited; and a further
batch in the next cycle window (here at t=61, after the window entries
expire) recomputes the same 21 due reminders and again sends only the
first 20 of them, so it is again the first 20 — not the remaining
21st — that are sent. -/
theorem send_reminders_batch_boundary :
    (send_reminders 20 0 c4Invoices (fun _ => false) (limiter_send {} 0)
        (initRateLimiter {} 0)).1 = ⟨20, 0, 0⟩ ∧
    (get_due_reminders 0 c4Invoices).length = 21 ∧
    (send_reminders 20 0 c4Invoices (fun _ => false) (limiter_send {} 0)
        (initRateLimiter {} 0)).2.2 = (get_due_reminders 0 c4Invoices).take 20 ∧
    (send_reminders 20 0 c4Invoices (fun _ => false) (limiter_send {} 61)
        (send_reminders 20 0 c4Invoices (fun _ => false) (limiter_send {} 0)
          (initRateLimiter {} 0)).2.1).1 = ⟨20, 0, 0⟩ ∧
    (send_reminders 20 0 c4Invoices (fun _ => false) (limiter_send {} 61)
        (send_reminders 20 0 c4Invoices (fun _ => false) (limiter_send {} 0)
          (initRateLimiter {} 0)).2.1).2.2 = (get_due_reminders 0 c4Invoices).take 20 := by
  decide

/-! ## Invoice state store — `src/state/invoice_state.py`

A state record is modelled as its parsed JSON object: an association
list of field name to serialised value.  The SHA-256 digest of
`_compute_checksum` is kept abstract as a `hash` parameter over the
canonical serialisation of the non-underscore fields; every theorem
below holds for an arbitrary `hash`. -/

/-- A JSON object as stored in a state file. -/
abbrev Record := List (String × String)

/-- What a file on disk can hold: a JSON document that parses to a
record, or content on which `json.load` raises `JSONDecodeError`. -/
inductive FileContent
  | parsed (data : Record)
  | malformed
deriving DecidableEq, Repr

/-- The on-disk material `read_state` / `mark_paid` touch for one
`(client, invoice)` key: the active `{client}/{invoice}.json` file, its
sibling `.bak`, the `archive/{client}/{invoice}.json` copy, and the
event types appended to `events.log`. -/
structure KeyStore where
  active : Option FileContent
  bak : Option FileContent
  archive : Option Record
  events : List String
deriving DecidableEq, Repr

/-- `_compute_checksum` (invoice_state.py lines 295-304): drop every
field whose name begins with an underscore, serialise canonically and
hash.  `hash` stands for the 16-hex-character truncated SHA-256 of the
canonical JSON dump. -/
def compute_checksum (hash : Record → String) (data : Record) : String :=
  hash (data.filter fun kv => !kv.1.startsWith "_")

/-- Result of `read_state`: `None` for a missing file, the record, or a
raised `StateCorruptionError`. -/
inductive ReadResult
  | notFound
  | ok (data : Record)
  | corrupt
deriving DecidableEq, Repr

/-- `_attempt_recovery` (invoice_state.py lines 207-220): the `.bak`
sibling's parsed content if it exists and loads, else nothing. -/
def attempt_recovery (bak : Option FileContent) : Option Record :=
  match bak with
  | some (.parsed d) => some d
  | _ => none

/-- `dict.pop("_checksum", None)` on a parsed record: the popped value
and the record with the field removed. -/
def popChecksum (data : Record) : Option String × Record :=
  (data.lookup "_checksum", data.filter fun kv => kv.1 ≠ "_checksum")

/-- `read_state` (invoice_state.py lines 159-205): `None` when the file
does not exist; on a parse error, recover from `.bak` or raise
`StateCorruptionError`; with `verify_checksum` and a truthy stored
`_checksum`, recompute over the record minus underscore fields and on
mismatch recover from `.bak` or raise; otherwise return the record
(with `_checksum` popped whenever the key was present). -/
def read_state (hash : Record → String) (verifyChecksum : Bool)
    (st : KeyStore) : ReadResult :=
  match st.active with
  | none => .notFound
  | some .malformed =>
    match attempt_recovery st.bak with
    | some d => .ok d
    | none => .corrupt
  | some (.parsed data) =>
    if verifyChecksum then
      match data.lookup "_checksum" with
      | none => .ok data
      | some stored =>
        if stored = "" then .ok (popChecksum data).2
        else if stored = compute_checksum hash (popChecksum data).2 then
          .ok (popChecksum data).2
        else
          match attempt_recovery st.bak with
          | some d => .ok d
          | none => .corrupt
    else .ok data

/-- Assignment `data[k] = v` on a parsed record: overwrite in place if
the key exists, else append. -/
def setField (k v : String) (data : Record) : Record :=
  if (data.lookup k).isSome then
    data.map fun kv => if kv.1 = k then (k, v) else kv
  else data ++ [(k, v)]

/-- The `state_data` dict built by `write_state` (invoice_state.py
lines 135-149): the payload plus `_checksum` (computed before the
metadata is added), `_updated_at` and `_version`. -/
def writeStateData (hash : Record → String) (updatedAt : String)
    (data : Record) : Record :=
  setField "_version" "1.0"
    (setField "_updated_at" updatedAt
      (setField "_checksum" (compute_checksum hash data) data))

/-- `write_state` (invoice_state.py lines 113-157): atomically replace
the active file with the checksummed record and append a
`state_update` event. -/
def write_state (hash : Record → String) (updatedAt : String)
    (data : Record) (st : KeyStore) : KeyStore :=
  { st with
    active := some (.parsed (writeStateData hash updatedAt data)),
    events := st.events ++ ["state_update"] }

/-- The exceptions `mark_paid` can raise. -/
inductive MarkPaidError
  | fileNotFound
  | stateCorruption
deriving DecidableEq, Repr

/-- The mutation `data["status"] = "paid"; data["paid_at"] = ...;
data["payment"] = ...` performed by `mark_paid` (invoice_state.py lines
245-248). -/
def markPaidUpdate (ts payment : String) (data : Record) : Record :=
  setField "payment" payment (setField "paid_at" ts (setField "status" "paid" data))

/-- `mark_paid` (invoice_state.py lines 222-272): raise
`FileNotFoundError` when the active file does not exist; read the
current state; set `status`, `paid_at` and `payment`; `write_state` the
update; copy the updated record to the archive; unlink the active file;
append a `paid` event; return the archived record. -/
def mark_paid (hash : Record → String) (ts : String) (payment : String)
    (st : KeyStore) : Except MarkPaidError (Record × KeyStore) :=
  match st.active with
  | none => .error .fileNotFound
  | some _ =>
    match read_state hash true st with
    | .notFound => .error .fileNotFound
    | .corrupt => .error .stateCorruption
    | .ok data =>
      .ok (markPaidUpdate ts payment data,
        { write_state hash ts (markPaidUpdate ts payment data) st with
          archive := some (markPaidUpdate ts payment data),
          active := none,
          events :=
            (write_state hash ts (markPaidUpdate ts payment data) st).events ++
              ["paid"] })

/-- `create_backup` (invoice_state.py lines 274-293): copy the active
file to the `.bak` sibling (raising when the active file is absent). -/
def create_backup (st : KeyStore) : Except MarkPaidError KeyStore :=
  match st.active with
  | none => .error .fileNotFound
  | some content => .ok { st with bak := some content }

/-- A stand-in for the truncated SHA-256 used in concrete runs; the
theorems below hold for every hash function. -/
def demoHash : Record → String := fun r => "hx" ++ toString r.length

/-- A key whose active file holds an unpaid record (no stored
checksum), with no backup and an empty archive. -/
def demoStore : KeyStore :=
  ⟨some (.parsed [("status", "unpaid"), ("amount", "100")]), none, none, []⟩

/-- The archived record produced by `mark_paid` on `demoStore`. -/
def demoUpdated : Record :=
  markPaidUpdate "T1" "wire" [("status", "unpaid"), ("amount", "100")]

/-- The `demoStore` key after a completed `mark_paid`: active copy
removed, record archived. -/
def demoStoreAfter : KeyStore :=
  { write_state demoHash "T1" demoUpdated demoStore with
    archive := some demoUpdated,
    active := none,
    events := (write_state demoHash "T1" demoUpdated demoStore).events ++ ["paid"] }

/-- Claim C2: after `mark_paid` has completed for a key (status paid,
record archived, active copy removed), a second `mark_paid` on the same
key is a no-op yielding the same archive record.  Refuted at a concrete
key: the first call succeeds and unlinks the active file, so the second
call raises `FileNotFoundError` instead of returning the archive
record. -/
theorem mark_paid_second_call_counterexample :
    mark_paid demoHash "T1" "wire" demoStore = .ok (demoUpdated, demoStoreAfter) ∧
    demoStoreAfter.active = none ∧
    demoStoreAfter.archive = some demoUpdated ∧
    mark_paid demoHash "T2" "wire" demoStoreAfter = .error .fileNotFound :=
  ⟨rfl, rfl, rfl, rfl⟩

/-- Claim C2 (amended): `mark_paid` is not idempotent — once a call has
completed (removing the active copy), every further `mark_paid` on the
same key raises `FileNotFoundError`. -/
theorem mark_paid_not_idempotent (hash : Record → String)
    (ts ts2 pay pay2 : String) (st : KeyStore) (archived : Record)
    (st1 : KeyStore) (h : mark_paid hash ts pay st = .ok (archived, st1)) :
    mark_paid hash ts2 pay2 st1 = .error .fileNotFound := by
  have hactive : st1.active = none := by
    unfold mark_paid at h
    split at h
    · exact absurd h (by simp)
    · split at h
      · exact absurd h (by simp)
      · exact absurd h (by simp)
      · injection h with h'
        have h2 := congrArg (fun p : Record × KeyStore => p.2.active) h'
        simpa using h2.symm
  unfold mark_paid
  rw [hactive]

/-- Claim C2 (amended), witnessed on the concrete key: the second call
on the post-`mark_paid` store raises `FileNotFoundError`. -/
theorem mark_paid_not_idempotent_witness :
    mark_paid demoHash "T3" "ach" demoStoreAfter = .error .fileNotFound :=
  mark_paid_not_idempotent demoHash "T1" "T3" "wire" "ach" demoStore demoUpdated
    demoStoreAfter rfl

/-- Claim C6: `read_state` with `verify_checksum=True` recomputes the
checksum over the record minus underscore fields and compares it with
the stored `_checksum`; on mismatch — and likewise on a JSON parse
error — it returns the parsed content of the sibling `.bak` when that
backup exists and loads, and raises `StateCorruptionError` otherwise;
a matching checksum returns the record (checksum popped); a missing
state file returns `None`. -/
theorem read_state_verify_correct (hash : Record → String) (st : KeyStore) :
    (st.active = none → read_state hash true st = .notFound) ∧
    (∀ data stored, st.active = some (.parsed data) →
      data.lookup "_checksum" = some stored → stored ≠ "" →
      stored = compute_checksum hash (popChecksum data).2 →
      read_state hash true st = .ok (popChecksum data).2) ∧
    (∀ data stored, st.active = some (.parsed data) →
      data.lookup "_checksum" = some stored → stored ≠ "" →
      stored ≠ compute_checksum hash (popChecksum data).2 →
      (∀ b, st.bak = some (.parsed b) → read_state hash true st = .ok b) ∧
      (attempt_recovery st.bak = none → read_state hash true st = .corrupt)) ∧
    (st.active = some .malformed →
      (∀ b, st.bak = some (.parsed b) → read_state hash true st = .ok b) ∧
      (attempt_recovery st.bak = none → read_state hash true st = .corrupt)) := by
  refine ⟨fun h => by simp [read_state, h], ?_, ?_, ?_⟩
  · intro data stored hact hlook hne hmatch
    simp [read_state, hact, hlook, hne, ← hmatch]
  · intro data stored hact hlook hne hmis
    constructor
    · intro b hbak
      simp [read_state, hact, hlook, hne, hmis, attempt_recovery, hbak]
    · intro hrec
      simp [read_state, hact, hlook, hne, hmis, hrec]
  · intro hact
    constructor
    · intro b hbak
      simp [read_state, hact, attempt_recovery, hbak]
    · intro hrec
      simp [read_state, hact, hrec]

/-- Claim C6, witnessed: a missing file reads as `None`; a tampered
record (stored checksum no longer matching) recovers the `.bak`
content when the backup exists; the same tampered record with no
backup raises `StateCorruptionError`. -/
theorem read_state_verify_correct_witness :
    read_state demoHash true ⟨none, none, none, []⟩ = .notFound ∧
    read_state demoHash true
        ⟨some (.parsed [("_checksum", "tampered"), ("amount", "999")]),
          some (.parsed [("amount", "100")]), none, []⟩ =
      .ok [("amount", "100")] ∧
    read_state demoHash true
        ⟨some (.parsed [("_checksum", "tampered"), ("amount", "999")]),
          none, none, []⟩ = .corrupt :=
  ⟨(read_state_verify_correct demoHash _).1 rfl,
   ((read_state_verify_correct demoHash _).2.2.1 [("_checksum", "tampered"),
        ("amount", "999")] "tampered" rfl rfl (by decide) (by decide)).1
      [("amount", "100")] rfl,
   ((read_state_verify_correct demoHash _).2.2.1 [("_checksum", "tampered"),
        ("amount", "999")] "tampered" rfl rfl (by decide) (by decide)).2 rfl⟩

/-- Claim C10: a persisted record carrying no `_checksum` field passes
`read_state(verify_checksum=True)` without any integrity check and is
returned as-is; such a record can never be reported corrupt. -/
theorem read_state_missing_checksum (hash : Record → String) (st : KeyStore)
    (data : Record) (hact : st.active = some (.parsed data))
    (hnone : data.lookup "_checksum" = none) :
    read_state hash true st = .ok data ∧ read_state hash true st ≠ .corrupt := by
  have h : read_state hash true st = .ok data := by
    simp [read_state, hact, hnone]
  exact ⟨h, by simp [h]⟩

/-- Claim C10, witnessed on a checksum-free record. -/
theorem read_state_missing_checksum_witness :
    read_state demoHash true
        ⟨some (.parsed [("status", "unpaid"), ("amount", "42")]), none, none, []⟩ =
      .ok [("status", "unpaid"), ("amount", "42")] :=
  (read_state_missing_checksum demoHash
    ⟨some (.parsed [("status", "unpaid"), ("amount", "42")]), none, none, []⟩
    [("status", "unpaid"), ("amount", "42")] rfl (by decide)).1

/-! ## Payment confidence checker —
`src/filesystem/payment_checker.py` -/

/-- The `payment_data` dict extracted from a payment file's path
(`_extract_payment_data`): each field may be missing, and amounts are
modelled as exact rationals. -/
structure PaymentData where
  amount : Option ℚ
  client : Option String
  invoiceNumber : Option String
deriving DecidableEq, Repr

/-- An unpaid invoice as returned by `state.get_all_unpaid()`, with the
fields `_find_matching_invoice` reads (`invoice.get(...)` may be
absent). -/
structure UnpaidInvoice where
  invoiceNumber : Option String
  client : Option String
  amount : ℚ
deriving DecidableEq, Repr

/-- Python's `abs` on an exact rational. -/
def ratAbs (q : ℚ) : ℚ := if q < 0 then -q else q

/-- The invoice-number test in the `_find_matching_invoice` loop body
(payment_checker.py lines 118-121): the extracted number is truthy and
equals the invoice's number. -/
def matchByNumber (num : Option String) (inv : UnpaidInvoice) : Bool :=
  match num with
  | some n => n ≠ "" && inv.invoiceNumber == some n
  | none => false

/-- The amount test in the `_find_matching_invoice` loop body
(payment_checker.py lines 123-137): extracted amount and client truthy,
same client, invoice amount positive, and relative difference within
5%. -/
def matchByAmount (amount : Option ℚ) (client : Option String)
    (inv : UnpaidInvoice) : Bool :=
  match amount, client with
  | some a, some c =>
    a ≠ 0 && c ≠ "" && inv.client == some c &&
      (if 0 < inv.amount then
        decide (ratAbs (inv.amount - a) / inv.amount ≤ 5 / 100)
       else false)
  | _, _ => false

/-- `_find_matching_invoice` (payment_checker.py lines 111-143): walk
the unpaid invoices in order and return the first one that matches by
exact invoice number or, failing that for the same invoice, by client
plus amount within 5%. -/
def find_matching_invoice (p : PaymentData) :
    List UnpaidInvoice → Option UnpaidInvoice
  | [] => none
  | inv :: rest =>
    if matchByNumber p.invoiceNumber inv then some inv
    else if matchByAmount p.amount p.client inv then some inv
    else find_matching_invoice p rest

/-- `_verify_amount` (payment_checker.py lines 145-165): 1.0 within one
cent, else 0.95 for under-payment, 0.90 for over-payment, 0.0 when a
value is missing. -/
def verify_amount (payment invoice : Option ℚ) : ℚ :=
  match payment, invoice with
  | some p, some i =>
    if ratAbs (p - i) < 1 / 100 then 1
    else if p < i then 95 / 100
    else if i < p then 9 / 10
    else 0
  | _, _ => 0

/-- The earlier invoice: matches the payment only by client+amount. -/
def amountOnlyInvoice : UnpaidInvoice := ⟨some "INV-A", some "acme", 100⟩

/-- The later invoice: matches the payment exactly by number. -/
def exactNumberInvoice : UnpaidInvoice := ⟨some "INV-B", some "beta", 500⟩

/-- Claim C7: an exact invoice-number match takes precedence over a
client+amount match regardless of enumeration order.  Refuted at a
concrete input: for a payment carrying number `INV-B`, amount 100 and
client `acme`, the scan returns the earlier amount-matched invoice
`INV-A` even though a later invoice matches `INV-B` exactly. -/
theorem find_matching_invoice_order_counterexample :
    find_matching_invoice ⟨some 100, some "acme", some "INV-B"⟩
        [amountOnlyInvoice, exactNumberInvoice] = some amountOnlyInvoice ∧
    matchByNumber (some "INV-B") exactNumberInvoice = true ∧
    matchByNumber (some "INV-B") amountOnlyInvoice = false := by
  refine ⟨?_, by decide, by decide⟩
  have hnum : matchByNumber (some "INV-B") amountOnlyInvoice = false := by decide
  have hamt : matchByAmount (some 100) (some "acme") amountOnlyInvoice = true := by
    norm_num [matchByAmount, amountOnlyInvoice, ratAbs]
    decide
  simp [find_matching_invoice, hnum, hamt]

/-- Claim C7 (amended): the scan returns the first invoice in
enumeration order that matches either by exact number or by
client+amount-within-5% — number precedence holds only within a single
invoice, not across the list — and the confidence reported by the
amount check is 1.0 within one cent, 0.95 for under-payment and 0.90
for over-payment. -/
theorem find_matching_invoice_first_match :
    (∀ (p : PaymentData) (l : List UnpaidInvoice),
      find_matching_invoice p l =
        l.find? fun inv =>
          matchByNumber p.invoiceNumber inv || matchByAmount p.amount p.client inv) ∧
    (∀ p i : ℚ,
      (ratAbs (p - i) < 1 / 100 → verify_amount (some p) (some i) = 1) ∧
      (1 / 100 ≤ ratAbs (p - i) → p < i →
        verify_amount (some p) (some i) = 95 / 100) ∧
      (1 / 100 ≤ ratAbs (p - i) → i < p →
        verify_amount (some p) (some i) = 9 / 10)) := by
  constructor
  · intro p l
    induction l with
    | nil => rfl
    | cons inv rest ih =>
      by_cases hn : matchByNumber p.invoiceNumber inv
      · simp [find_matching_invoice, hn, List.find?_cons]
      · by_cases ha : matchByAmount p.amount p.client inv
        · simp [find_matching_invoice, hn, ha, List.find?_cons]
        · simp [find_matching_invoice, hn, ha, List.find?_cons, ih]
  · intro p i
    have hv : verify_amount (some p) (some i) =
        if ratAbs (p - i) < 1 / 100 then 1
        else if p < i then 95 / 100
        else if i < p then 9 / 10
        else 0 := rfl
    refine ⟨fun h => ?_, fun h hlt => ?_, fun h hgt => ?_⟩
    · rw [hv, if_pos h]
    · rw [hv, if_neg (not_lt.mpr h), if_pos hlt]
    · rw [hv, if_neg (not_lt.mpr h), if_neg (not_lt.mpr hgt.le), if_pos hgt]

/-- Claim C7 (amended), witnessed: the first-match rule on the
counterexample list, an under-payment scoring 0.95 and an over-payment
scoring 0.90. -/
theorem find_matching_invoice_first_match_witness :
    find_matching_invoice ⟨some 100, some "acme", some "INV-B"⟩
        [amountOnlyInvoice, exactNumberInvoice] =
      List.find?
        (fun inv =>
          matchByNumber (some "INV-B") inv ||
            matchByAmount (some 100) (some "acme") inv)
        [amountOnlyInvoice, exactNumberInvoice] ∧
    verify_amount (some 90) (some 100) = 95 / 100 ∧
    verify_amount (some 110) (some 100) = 9 / 10 :=
  ⟨find_matching_invoice_first_match.1 ⟨some 100, some "acme", some "INV-B"⟩
      [amountOnlyInvoice, exactNumberInvoice],
   ((find_matching_invoice_first_match.2 90 100).2.1 (by norm_num [ratAbs])
      (by norm_num)),
   ((find_matching_invoice_first_match.2 110 100).2.2 (by norm_num [ratAbs])
      (by norm_num))⟩

/-! ## Confidence routing — `src/collections/pdf_parser.py` -/

/-- The routing decision of `route_by_confidence`. -/
inductive Route
  | auto
  | review
  | manual
deriving DecidableEq, Repr

/-- `route_by_confidence` (pdf_parser.py lines 265-319): `auto` when
`confidence >= 0.95`, else `review` when `confidence >= 0.85`, else
`manual`. -/
def route_by_confidence (confidence : ℚ) : Route :=
  if confidence ≥ 95 / 100 then .auto
  else if confidence ≥ 85 / 100 then .review
  else .manual

/-- Claim C8: routing is by overall confidence with
inclusive-from-below boundaries — `auto` iff `c ≥ 0.95`, `review` iff
`0.85 ≤ c < 0.95`, `manual` iff `c < 0.85`. -/
theorem route_by_confidence_boundaries (c : ℚ) :
    (route_by_confidence c = .auto ↔ 95 / 100 ≤ c) ∧
    (route_by_confidence c = .review ↔ 85 / 100 ≤ c ∧ c < 95 / 100) ∧
    (route_by_confidence c = .manual ↔ c < 85 / 100) := by
  unfold route_by_confidence
  by_cases h1 : 95 / 100 ≤ c
  · rw [if_pos (by exact h1)]
    refine ⟨iff_of_true rfl h1, iff_of_false (by simp) ?_, iff_of_false (by simp) ?_⟩
    · rintro ⟨-, hlt⟩
      exact absurd h1 (not_le.mpr hlt)
    · intro hlt
      exact absurd h1 (not_le.mpr (hlt.trans (by norm_num)))
  · rw [if_neg (by exact h1)]
    by_cases h2 : 85 / 100 ≤ c
    · rw [if_pos (by exact h2)]
      refine ⟨iff_of_false (by simp) (fun h => h1 h), iff_of_true rfl ⟨h2, not_le.mp h1⟩,
        iff_of_false (by simp) (fun h => absurd h2 (not_le.mpr h))⟩
    · rw [if_neg (by exact h2)]
      refine ⟨iff_of_false (by simp) (fun h => h1 h),
        iff_of_false (by simp) (fun h => h2 h.1), iff_of_true rfl (not_le.mp h2)⟩

/-- Claim C8, witnessed at the boundaries: confidence exactly 0.95
routes `auto`, exactly 0.85 routes `review`, and 0.849 routes
`manual`. -/
theorem route_by_confidence_boundaries_witness :
    route_by_confidence (95 / 100) = .auto ∧
    route_by_confidence (85 / 100) = .review ∧
    route_by_confidence (849 / 1000) = .manual :=
  ⟨(route_by_confidence_boundaries (95 / 100)).1.mpr (by norm_num),
   (route_by_confidence_boundaries (85 / 100)).2.1.mpr (by norm_num),
   (route_by_confidence_boundaries (849 / 1000)).2.2.mpr (by norm_num)⟩

/-! ## Ledger — `src/state/ledger.py`

The markdown ledger file is modelled by its parsed structure: the entry
lines of the three sections (each entry line carries the backtick-quoted
invoice number) plus the summary totals kept in `self._totals`. -/

/-- One ``- `{number}` | ${amount} | ...`` entry line. -/
structure LedgerEntry where
  number : String
  amount : ℚ
  client : String
  due : Option String
  status : String
deriving DecidableEq, Repr

/-- The ledger file: `## Unpaid`, `## Paid` and `## Escalated` section
entries, and the `## Summary` running totals. -/
structure LedgerState where
  unpaid : List LedgerEntry
  paid : List LedgerEntry
  escalated : List LedgerEntry
  unpaidTotal : ℚ
  paidTotal : ℚ
  escalatedTotal : ℚ
deriving DecidableEq, Repr

/-- The grand total of `get_summary` (ledger.py lines 273-280): the sum
of the three section totals. -/
def grandTotal (L : LedgerState) : ℚ :=
  L.unpaidTotal + L.paidTotal + L.escalatedTotal

/-- The `invoice_data` dict passed to `add_invoice` with its required
fields (`invoice_number`, `amount`, `client_name`) and optional
`due_date`. -/
structure InvoiceData where
  invoiceNumber : String
  amount : ℚ
  clientName : String
  dueDate : Option String
deriving DecidableEq, Repr

/-- `_invoice_exists` (ledger.py lines 359-362): the backticked invoice
number occurs somewhere in the ledger file, i.e. on some entry line of
some section. -/
def invoice_exists (num : String) (L : LedgerState) : Bool :=
  (L.unpaid ++ L.paid ++ L.escalated).any fun e => e.number == num

/-- The result of `add_invoice` paired with the ledger file afterwards:
`LedgerError` is raised before any write, so on failure the file and
totals are untouched. -/
inductive AddResult
  | ok
  | duplicateInvoice
deriving DecidableEq, Repr

/-- `add_invoice` (ledger.py lines 100-138): raise a duplicate-invoice
`LedgerError` when the number already exists anywhere in the ledger
(before any mutation); otherwise insert the entry into the Unpaid
section and add the amount to the unpaid running total. -/
def add_invoice (L : LedgerState) (d : InvoiceData) : AddResult × LedgerState :=
  if invoice_exists d.invoiceNumber L then (.duplicateInvoice, L)
  else
    (.ok,
      { L with
        unpaid := ⟨d.invoiceNumber, d.amount, d.clientName, d.dueDate, "unpaid"⟩ ::
          L.unpaid,
        unpaidTotal := L.unpaidTotal + d.amount })

/-- Claim C9: `add` inserts into Unpaid and rejects a number already
present in any section; `add(i); add(i)` has the second call rejected
and leaves the ledger and its totals exactly as after the first call. -/
theorem add_invoice_duplicate_rejected (L : LedgerState) (d : InvoiceData) :
    (invoice_exists d.invoiceNumber L = true → add_invoice L d = (.duplicateInvoice, L)) ∧
    (invoice_exists d.invoiceNumber L = false →
      (add_invoice L d).1 = .ok ∧
      (⟨d.invoiceNumber, d.amount, d.clientName, d.dueDate, "unpaid"⟩ : LedgerEntry) ∈
        (add_invoice L d).2.unpaid ∧
      (add_invoice L d).2.unpaidTotal = L.unpaidTotal + d.amount ∧
      (add_invoice L d).2.paid = L.paid ∧ (add_invoice L d).2.escalated = L.escalated) ∧
    (∀ L', add_invoice L d = (.ok, L') → add_invoice L' d = (.duplicateInvoice, L')) := by
  refine ⟨fun h => by simp [add_invoice, h], fun h => ?_, fun L' h => ?_⟩
  · refine ⟨by simp [add_invoice, h], by simp [add_invoice, h], by simp [add_invoice, h],
      by simp [add_invoice, h], by simp [add_invoice, h]⟩
  · by_cases hex : invoice_exists d.invoiceNumber L = true
    · rw [add_invoice, if_pos hex] at h
      exact absurd (congrArg Prod.fst h) (by simp)
    · rw [add_invoice, if_neg hex] at h
      have hL' : ({ L with
          unpaid := ⟨d.invoiceNumber, d.amount, d.clientName, d.dueDate, "unpaid"⟩ ::
            L.unpaid,
          unpaidTotal := L.unpaidTotal + d.amount } : LedgerState) = L' := by
        simpa using congrArg Prod.snd h
      have hdup : invoice_exists d.invoiceNumber L' = true := by
        rw [← hL']
        simp [invoice_exists]
      simp [add_invoice, hdup]

/-- Claim C9, witnessed on an empty ledger: the first `add` succeeds
and the second is rejected with the ledger unchanged. -/
theorem add_invoice_duplicate_rejected_witness :
    (add_invoice ⟨[], [], [], 0, 0, 0⟩ ⟨"INV-001", 1500, "ACME", none⟩).1 = .ok ∧
    add_invoice (add_invoice ⟨[], [], [], 0, 0, 0⟩ ⟨"INV-001", 1500, "ACME", none⟩).2
        ⟨"INV-001", 1500, "ACME", none⟩ =
      (.duplicateInvoice,
        (add_invoice ⟨[], [], [], 0, 0, 0⟩ ⟨"INV-001", 1500, "ACME", none⟩).2) :=
  ⟨((add_invoice_duplicate_rejected ⟨[], [], [], 0, 0, 0⟩
      ⟨"INV-001", 1500, "ACME", none⟩).2.1 (by decide)).1,
   (add_invoice_duplicate_rejected ⟨[], [], [], 0, 0, 0⟩
      ⟨"INV-001", 1500, "ACME", none⟩).2.2
    (add_invoice ⟨[], [], [], 0, 0, 0⟩ ⟨"INV-001", 1500, "ACME", none⟩).2
    (by rw [add_invoice, if_neg (by decide)])⟩

end NovoSpec
